import Mathlib

/-!
Shallow embedding of the OBR forecast household calculator backend
(src/backend/main.py) and proofs about its household matcher,
growth-factor projection and forecast endpoint arithmetic.

Monetary values and weights are modelled as rationals; Python `round(x, 2)`
is modelled as round-half-to-even at two decimal places.
-/

namespace ObrForecast

/-- The seven recognised income-source columns of the microdata panel. -/
inductive IncomeSource where
  | employment_income
  | self_employment_income
  | private_pension_income
  | state_pension
  | savings_interest_income
  | dividend_income
  | property_income
deriving DecidableEq, Repr

/-- One row of the microdata panel (one person), with the columns
`get_simulation_input` reads. -/
structure PersonRow where
  age : Int
  relation_type : String
  benunit_count_children : Nat
  employment_income : ℚ
  self_employment_income : ℚ
  private_pension_income : ℚ
  state_pension : ℚ
  savings_interest_income : ℚ
  dividend_income : ℚ
  property_income : ℚ
  person_id : Nat
  household_id : Nat
  household_weight : ℚ
  adult_index : Nat
  child_index : Nat
deriving DecidableEq, Repr

/-- Column lookup `row[source]` for the seven income sources. -/
def PersonRow.get (r : PersonRow) : IncomeSource → ℚ
  | .employment_income => r.employment_income
  | .self_employment_income => r.self_employment_income
  | .private_pension_income => r.private_pension_income
  | .state_pension => r.state_pension
  | .savings_interest_income => r.savings_interest_income
  | .dividend_income => r.dividend_income
  | .property_income => r.property_income

/-- The `GrowthFactors` request model: four optional YoY percentage rates. -/
structure GrowthFactors where
  employment_income_yoy : Option ℚ
  mixed_income_yoy : Option ℚ
  non_labour_income_yoy : Option ℚ
  consumer_price_index_yoy : Option ℚ
deriving DecidableEq, Repr

/-- The `Household` request model. -/
structure Household where
  age : Int
  is_married : Bool
  income_source : IncomeSource
  income_amount : ℚ
  num_children : Nat
  custom_growth_factors : Option GrowthFactors
deriving DecidableEq, Repr

/-- The four macro parameters of the OBR forecast tables. -/
inductive ObrParam where
  | employment_income
  | mixed_income
  | non_labour_income
  | consumer_price_index
deriving DecidableEq, Repr

/-- A forecast table: per macro parameter, a per-year series
(years 2025..2034; other years are outside the dict and modelled as 0). -/
abbrev ForecastTable := ObrParam → Nat → ℚ

/-- A per-year series given by its ten values for 2025..2034. -/
def seriesOf (vals : List ℚ) : Nat → ℚ := fun y =>
  if 2025 ≤ y ∧ y ≤ 2034 then vals.getD (y - 2025) 0 else 0

/-- The Autumn 2024 OBR forecast constant. -/
def AUTUMN_24_OBR_FORECAST : ForecastTable
  | .employment_income =>
      seriesOf [1215.6, 1246.5, 1277.7, 1312.9, 1352.9, 1380.36, 1407.82, 1435.28, 1462.74, 1490.2]
  | .mixed_income =>
      seriesOf [177.6, 196.7, 205.3, 214.6, 225.0, 232.34, 239.68, 247.02, 254.36, 261.7]
  | .non_labour_income =>
      seriesOf [460.8, 512.7, 535.0, 554.0, 571.8, 588.38, 604.96, 621.54, 638.12, 654.7]
  | .consumer_price_index =>
      seriesOf [138.1, 141.1, 144.1, 147.1, 150.1, 152.5, 154.9, 157.3, 159.7, 162.1]

/-- The Spring 2025 OBR forecast constant (the source file writes out the same
values as the Autumn table, to be updated when the new forecast is released). -/
def SPRING_25_OBR_FORECAST : ForecastTable
  | .employment_income =>
      seriesOf [1215.6, 1246.5, 1277.7, 1312.9, 1352.9, 1380.36, 1407.82, 1435.28, 1462.74, 1490.2]
  | .mixed_income =>
      seriesOf [177.6, 196.7, 205.3, 214.6, 225.0, 232.34, 239.68, 247.02, 254.36, 261.7]
  | .non_labour_income =>
      seriesOf [460.8, 512.7, 535.0, 554.0, 571.8, 588.38, 604.96, 621.54, 638.12, 654.7]
  | .consumer_price_index =>
      seriesOf [138.1, 141.1, 144.1, 147.1, 150.1, 152.5, 154.9, 157.3, 159.7, 162.1]

/-! ## Household matcher (`get_simulation_input`) -/

/-- The relation-type tag the filter compares against:
`"COUPLE" if household.is_married else "SINGLE"`. -/
def relationTag (q : Household) : String :=
  if q.is_married then "COUPLE" else "SINGLE"

/-- First filter stage: decade bucket of age, relation type, child count
(`microdata["age"] // 10 == household.age // 10`, etc.). -/
def demoFilter (panel : List PersonRow) (q : Household) : List PersonRow :=
  panel.filter fun r =>
    (r.age.fdiv 10 == q.age.fdiv 10) &&
    (r.relation_type == relationTag q) &&
    (r.benunit_count_children == q.num_children)

/-- Second filter stage: designated income source within strict 15e3 tolerance
(`(subset[source] - amount).abs() < 15e3`). -/
def incomeFilter (rows : List PersonRow) (q : Household) : List PersonRow :=
  rows.filter fun r => decide (|r.get q.income_source - q.income_amount| < 15000)

/-- One weighted draw (`.sample(weights=household_weight)`), modelled by a
seed `u`: walk the rows, picking the first whose weight exceeds the remaining
seed mass; `none` models the raised error on an empty or exhausted draw. -/
def weightedPick : List PersonRow → ℚ → Option PersonRow
  | [], _ => none
  | r :: rs, u => if u < r.household_weight then some r else weightedPick rs (u - r.household_weight)

/-- The row drawn by the sampler for a query, and hence the sampled
`household_id` (`random_household_id`). -/
def sampledRow (panel : List PersonRow) (u : ℚ) (q : Household) : Option PersonRow :=
  weightedPick (incomeFilter (demoFilter panel q) q) u

/-- `random_household_id`: the household id of the sampled row. -/
def sampledHouseholdId (panel : List PersonRow) (u : ℚ) (q : Household) : Option Nat :=
  (sampledRow panel u q).map (·.household_id)

/-- One person entry of the situation dict: an optional base-year age entry,
and the seven base-year income-source entries. -/
structure PersonEntry where
  age : Option Int
  incomes : IncomeSource → ℚ

/-- The situation dict passed to the engine: `"you"`, optionally
`"your partner"`, and the indexed children. -/
structure Situation where
  you : PersonEntry
  partner : Option PersonEntry
  children : List PersonEntry

/-- The `"your partner"` entry: for a married query, look up the row with
`adult_index == 2` (an absent row is the source's uncaught indexing error,
modelled as `none` at the outer level); the spouse dict holds only the seven
income entries. For an unmarried query there is no partner entry. -/
def getPartner (household : List PersonRow) (q : Household) : Option (Option PersonEntry) :=
  if q.is_married then
    match household.find? (fun r => r.adult_index == 2) with
    | none => none
    | some p => some (some { age := none, incomes := fun v => p.get v })
  else some none

/-- The `child i` entries for `i = 1..n` in order, each with the sampled
child's age and seven incomes; a missing `child_index` row is the source's
uncaught indexing error, modelled as `none`. -/
def buildChildren (household : List PersonRow) : Nat → Option (List PersonEntry)
  | 0 => some []
  | n + 1 => do
      let rest ← buildChildren household n
      let c ← household.find? (fun r => r.child_index == n + 1)
      some (rest ++ [{ age := some c.age, incomes := fun v => c.get v }])

/-- `get_simulation_input`: filter, weighted-sample a household id, fetch the
household's rows, and project main adult / partner / children into a
situation. `"you"` gets the query's age, the main adult's seven incomes, and
then the designated source is overwritten with the query's amount. -/
def get_simulation_input (panel : List PersonRow) (u : ℚ) (q : Household) : Option Situation := do
  let row ← weightedPick (incomeFilter (demoFilter panel q) q) u
  let random_household := panel.filter (fun r => r.household_id == row.household_id)
  let main_adult ← random_household.find? (fun r => r.adult_index == 1)
  let you : PersonEntry :=
    { age := some q.age
      incomes := Function.update (fun v => main_adult.get v) q.income_source q.income_amount }
  let partner ← getPartner random_household q
  let children ← buildChildren random_household q.num_children
  some { you := you, partner := partner, children := children }

/-! ## Custom growth-factor table (`create_custom_growth_factors`) -/

/-- The years the projection loop writes (`range(2026, 2035)`). -/
def forecastYears : List Nat := [2026, 2027, 2028, 2029, 2030, 2031, 2032, 2033, 2034]

/-- The projection loop for one parameter: starting from the 2025 base value,
`current *= (1 + r / 100)` and write `current` at each year 2026..2034 into
the (copied) series `s`. -/
def projectSeries (r base : ℚ) (s : Nat → ℚ) : Nat → ℚ :=
  (forecastYears.foldl
    (fun st y => (st.1 * (1 + r / 100), Function.update st.2 y (st.1 * (1 + r / 100))))
    (base, s)).2

/-- Replace one parameter's series in a table. -/
def updateParam (tbl : ForecastTable) (p : ObrParam) (s : Nat → ℚ) : ForecastTable :=
  fun q => if q = p then s else tbl q

/-- `create_custom_growth_factors`: copy the Autumn table, then for each of
the four parameters whose YoY rate is set, replace its series by the
compounded projection from the Autumn 2025 base value. -/
def create_custom_growth_factors (f : GrowthFactors) : ForecastTable :=
  let custom : ForecastTable := fun p => AUTUMN_24_OBR_FORECAST p
  let base_values : ObrParam → ℚ := fun p => AUTUMN_24_OBR_FORECAST p 2025
  let custom := match f.employment_income_yoy with
    | some r => updateParam custom .employment_income
        (projectSeries r (base_values .employment_income) (custom .employment_income))
    | none => custom
  let custom := match f.mixed_income_yoy with
    | some r => updateParam custom .mixed_income
        (projectSeries r (base_values .mixed_income) (custom .mixed_income))
    | none => custom
  let custom := match f.non_labour_income_yoy with
    | some r => updateParam custom .non_labour_income
        (projectSeries r (base_values .non_labour_income) (custom .non_labour_income))
    | none => custom
  let custom := match f.consumer_price_index_yoy with
    | some r => updateParam custom .consumer_price_index
        (projectSeries r (base_values .consumer_price_index) (custom .consumer_price_index))
    | none => custom
  custom

/-- The YoY rate field of `GrowthFactors` belonging to a macro parameter. -/
def GrowthFactors.rateOf (f : GrowthFactors) : ObrParam → Option ℚ
  | .employment_income => f.employment_income_yoy
  | .mixed_income => f.mixed_income_yoy
  | .non_labour_income => f.non_labour_income_yoy
  | .consumer_price_index => f.consumer_price_index_yoy

/-! ## Heap model of `create_custom_growth_factors`

The Python function builds `{key: value.copy() for key, value in
AUTUMN_24_OBR_FORECAST.items()}` and then mutates the copied inner dicts in
place. To state the frame property (the built-in tables are not mutated) we
model inner dicts as heap cells addressed by references: the dict
comprehension allocates four fresh cells holding copies, and the projection
loops write only those fresh cells. -/

/-- A heap of per-year series cells: reference → year → value. -/
abbrev Heap := Nat → Nat → ℚ

/-- References of the four inner dicts of one forecast table. -/
structure TableRefs where
  employment_income : Nat
  mixed_income : Nat
  non_labour_income : Nat
  consumer_price_index : Nat
deriving DecidableEq, Repr

/-- A store: the heap plus the next fresh reference. -/
structure Store where
  heap : Heap
  next : Nat

/-- Write one year entry of one cell. -/
def heapWrite (h : Heap) (ref y : Nat) (v : ℚ) : Heap :=
  fun ρ yr => if ρ = ref ∧ yr = y then v else h ρ yr

/-- The projection loop as heap writes into the cell `ref`. -/
def writeSeries (h : Heap) (ref : Nat) (r base : ℚ) : Heap :=
  (forecastYears.foldl
    (fun st y => (st.1 * (1 + r / 100), heapWrite st.2 ref y (st.1 * (1 + r / 100))))
    (base, h)).2

/-- One `if custom_factors.X_yoy is not None:` block at the heap level: if
the rate is set, run the projection loop writing the cell `ref`, else leave
the heap unchanged. -/
def applyRate (o : Option ℚ) (h : Heap) (ref : Nat) (base : ℚ) : Heap :=
  match o with
  | none => h
  | some r => writeSeries h ref r base

/-- `create_custom_growth_factors` at the heap level: allocate four fresh
cells copying the Autumn cells, read the 2025 base values from the Autumn
cells, then run each enabled projection loop on the corresponding fresh
cell. Returns the custom table's references and the new store. -/
def create_custom_growth_factors_heap (f : GrowthFactors) (autumn : TableRefs)
    (st : Store) : TableRefs × Store :=
  let custom : TableRefs := ⟨st.next, st.next + 1, st.next + 2, st.next + 3⟩
  let h0 := st.heap
  let h1 : Heap := fun ρ y =>
    if ρ = st.next then h0 autumn.employment_income y
    else if ρ = st.next + 1 then h0 autumn.mixed_income y
    else if ρ = st.next + 2 then h0 autumn.non_labour_income y
    else if ρ = st.next + 3 then h0 autumn.consumer_price_index y
    else h0 ρ y
  let h2 := applyRate f.employment_income_yoy h1 custom.employment_income
    (h0 autumn.employment_income 2025)
  let h3 := applyRate f.mixed_income_yoy h2 custom.mixed_income
    (h0 autumn.mixed_income 2025)
  let h4 := applyRate f.non_labour_income_yoy h3 custom.non_labour_income
    (h0 autumn.non_labour_income 2025)
  let h5 := applyRate f.consumer_price_index_yoy h4 custom.consumer_price_index
    (h0 autumn.consumer_price_index 2025)
  (custom, { heap := h5, next := st.next + 4 })

/-! ## Forecast calculator (`calculate_forecast`) -/

/-- Python `round(x, 2)`: round half to even at two decimal places. -/
def roundHalfEven (x : ℚ) : ℤ :=
  let f := ⌊x⌋
  let frac := x - f
  if frac < 1 / 2 then f
  else if 1 / 2 < frac then f + 1
  else if f % 2 = 0 then f else f + 1

/-- Round to two decimal places. -/
def round2 (x : ℚ) : ℚ := (roundHalfEven (x * 100) : ℚ) / 100

/-- The response model, with the optional custom fields. -/
structure ForecastResult where
  income_2025 : ℚ
  income_2030_obr : ℚ
  income_2030_autumn : ℚ
  income_2030_custom : Option ℚ
  absolute_change_obr : ℚ
  percentage_change_obr : ℚ
  forecast_difference : ℚ
  forecast_percentage_difference : ℚ
  absolute_change_custom : Option ℚ
  percentage_change_custom : Option ℚ

/-- The external simulation engine (`calculate_household`), a black box from
situation, reform table and target year to a net-income figure. -/
abbrev Engine := Situation → ForecastTable → Nat → ℚ

/-- A record of one engine invocation. -/
structure EngineCall where
  situation : Situation
  reform : ForecastTable
  year : Nat

/-- Endpoint errors: the explicit age validation (HTTP 400) and the
uncaught server errors (sampling exhaustion etc., HTTP 500-class). -/
inductive ApiError where
  | badRequest (msg : String)
  | internalError

/-- The `/calculate` endpoint: validate the age, build the situation, run
the engine under Autumn 2025/2030, Spring 2030 (and the custom table when
custom growth factors are supplied, even if all four rates are unset), and
assemble the rounded response. The second component logs every engine
invocation in order. -/
def calculate_forecast (e : Engine) (panel : List PersonRow) (u : ℚ)
    (q : Household) : Except ApiError ForecastResult × List EngineCall :=
  if q.age < 16 then (.error (.badRequest "Age must be at least 16"), [])
  else
    match get_simulation_input panel u q with
    | none => (.error .internalError, [])
    | some situation =>
      let income_2025 := e situation AUTUMN_24_OBR_FORECAST 2025
      let income_2030_autumn := e situation AUTUMN_24_OBR_FORECAST 2030
      let income_2030_spring := e situation SPRING_25_OBR_FORECAST 2030
      let absolute_change_obr := income_2030_spring - income_2025
      let percentage_change_obr :=
        if 0 < income_2025 then absolute_change_obr / income_2025 * 100 else 0
      let forecast_difference := income_2030_spring - income_2030_autumn
      let forecast_percentage_difference :=
        if 0 < income_2030_autumn then forecast_difference / income_2030_autumn * 100 else 0
      let result : ForecastResult :=
        { income_2025 := round2 income_2025
          income_2030_obr := round2 income_2030_spring
          income_2030_autumn := round2 income_2030_autumn
          income_2030_custom := none
          absolute_change_obr := round2 absolute_change_obr
          percentage_change_obr := round2 percentage_change_obr
          forecast_difference := round2 forecast_difference
          forecast_percentage_difference := round2 forecast_percentage_difference
          absolute_change_custom := none
          percentage_change_custom := none }
      let baseCalls : List EngineCall :=
        [⟨situation, AUTUMN_24_OBR_FORECAST, 2025⟩,
         ⟨situation, AUTUMN_24_OBR_FORECAST, 2030⟩,
         ⟨situation, SPRING_25_OBR_FORECAST, 2030⟩]
      match q.custom_growth_factors with
      | none => (.ok result, baseCalls)
      | some f =>
        let custom_forecast := create_custom_growth_factors f
        let income_2030_custom := e situation custom_forecast 2030
        let absolute_change_custom := income_2030_custom - income_2025
        let percentage_change_custom :=
          if 0 < income_2025 then absolute_change_custom / income_2025 * 100 else 0
        (.ok { result with
                income_2030_custom := some (round2 income_2030_custom)
                absolute_change_custom := some (round2 absolute_change_custom)
                percentage_change_custom := some (round2 percentage_change_custom) },
         baseCalls ++ [⟨situation, custom_forecast, 2030⟩])

/-! ## Concrete test fixtures

A tiny single-person panel, a two-adult (couple) panel, concrete queries and
a concrete engine, used to instantiate the theorems below on closed inputs. -/

/-- A single unmarried adult in his thirties with employment income 28000. -/
def row1 : PersonRow :=
  { age := 31, relation_type := "SINGLE", benunit_count_children := 0,
    employment_income := 28000, self_employment_income := 100,
    private_pension_income := 0, state_pension := 0,
    savings_interest_income := 50, dividend_income := 0, property_income := 0,
    person_id := 1, household_id := 7, household_weight := 1,
    adult_index := 1, child_index := 0 }

/-- A one-row panel. -/
def panel0 : List PersonRow := [row1]

/-- An unmarried query aged 34 with employment income 30000. -/
def q0 : Household :=
  { age := 34, is_married := false, income_source := .employment_income,
    income_amount := 30000, num_children := 0, custom_growth_factors := none }

/-- The situation `get_simulation_input` builds for `panel0`/`q0` at seed 0. -/
def sit0 : Situation :=
  { you := { age := some 34,
             incomes := Function.update (fun v => row1.get v)
               IncomeSource.employment_income 30000 }
    partner := none
    children := [] }

/-- Main adult of a couple household, in his forties. -/
def rowA : PersonRow :=
  { age := 40, relation_type := "COUPLE", benunit_count_children := 0,
    employment_income := 50000, self_employment_income := 0,
    private_pension_income := 0, state_pension := 0,
    savings_interest_income := 0, dividend_income := 0, property_income := 0,
    person_id := 10, household_id := 9, household_weight := 1,
    adult_index := 1, child_index := 0 }

/-- Partner (adult index 2) of the couple household, aged 38. -/
def rowB : PersonRow :=
  { age := 38, relation_type := "COUPLE", benunit_count_children := 0,
    employment_income := 0, self_employment_income := 0,
    private_pension_income := 0, state_pension := 200,
    savings_interest_income := 0, dividend_income := 0, property_income := 0,
    person_id := 11, household_id := 9, household_weight := 1,
    adult_index := 2, child_index := 0 }

/-- The couple panel. -/
def panel1 : List PersonRow := [rowA, rowB]

/-- A married query aged 42 with employment income 50000. -/
def q1 : Household :=
  { age := 42, is_married := true, income_source := .employment_income,
    income_amount := 50000, num_children := 0, custom_growth_factors := none }

/-- The situation `get_simulation_input` builds for `panel1`/`q1` at seed 0:
the partner entry holds the seven incomes of `rowB` but no age entry. -/
def sit1 : Situation :=
  { you := { age := some 42,
             incomes := Function.update (fun v => rowA.get v)
               IncomeSource.employment_income 50000 }
    partner := some { age := none, incomes := fun v => rowB.get v }
    children := [] }

/-- A concrete stub engine: 100 for the base year, 120 for any other year. -/
def e0 : Engine := fun _ _ y => if y = 2025 then 100 else 120

/-- The response for `e0`/`panel0`/`q0` (no custom factors). -/
def res0 : ForecastResult :=
  { income_2025 := round2 100
    income_2030_obr := round2 120
    income_2030_autumn := round2 120
    income_2030_custom := none
    absolute_change_obr := round2 (120 - 100)
    percentage_change_obr := round2 ((120 - 100) / 100 * 100)
    forecast_difference := round2 (120 - 120)
    forecast_percentage_difference := round2 ((120 - 120) / 120 * 100)
    absolute_change_custom := none
    percentage_change_custom := none }

/-- `q0` with an all-unset custom growth-factor object supplied. -/
def q2 : Household :=
  { q0 with custom_growth_factors := some ⟨none, none, none, none⟩ }

/-- The response for `e0`/`panel0`/`q2`: the custom fields are populated. -/
def res2 : ForecastResult :=
  { res0 with
      income_2030_custom := some (round2 120)
      absolute_change_custom := some (round2 (120 - 100))
      percentage_change_custom := some (round2 ((120 - 100) / 100 * 100)) }

/-- `q0` with an age below the validation minimum. -/
def qYoung : Household := { q0 with age := 10 }

/-- A store with four live Autumn cells 0..3 (all-zero series for the test). -/
def st0 : Store := { heap := fun _ _ => 0, next := 4 }

/-- Autumn table references into `st0`. -/
def autumn0 : TableRefs := ⟨0, 1, 2, 3⟩

/-! ## Helper lemmas -/

/-- A weighted draw returns one of the candidate rows. -/
theorem weightedPick_mem : ∀ (l : List PersonRow) (u : ℚ) (r : PersonRow),
    weightedPick l u = some r → r ∈ l := by
  intro l
  induction l with
  | nil => intro u r h; simp [weightedPick] at h
  | cons a as ih =>
      intro u r h
      simp only [weightedPick] at h
      split at h
      · cases h; exact List.mem_cons_self a as
      · exact List.mem_cons_of_mem a (ih _ _ h)

/-- The source's Spring table duplicates the Autumn values verbatim. -/
theorem spring_eq_autumn : SPRING_25_OBR_FORECAST = AUTUMN_24_OBR_FORECAST := by
  funext p y
  cases p <;> rfl

/-- Rounding zero gives zero. -/
theorem round2_zero : round2 0 = 0 := by
  with_unfolding_all rfl

/-- Successful runs of `get_simulation_input` decompose into the sampled row,
the main adult, the partner entry and the children entries. -/
theorem get_simulation_input_elim (panel : List PersonRow) (u : ℚ) (q : Household)
    (s : Situation) (h : get_simulation_input panel u q = some s) :
    ∃ row main_adult po cs,
      weightedPick (incomeFilter (demoFilter panel q) q) u = some row ∧
      (panel.filter (fun r => r.household_id == row.household_id)).find?
        (fun r => r.adult_index == 1) = some main_adult ∧
      getPartner (panel.filter (fun r => r.household_id == row.household_id)) q = some po ∧
      buildChildren (panel.filter (fun r => r.household_id == row.household_id))
        q.num_children = some cs ∧
      s = { you := { age := some q.age
                     incomes := Function.update (fun v => main_adult.get v)
                       q.income_source q.income_amount }
            partner := po
            children := cs } := by
  simp only [get_simulation_input, bind, Option.bind_eq_some, Option.some.injEq] at h
  obtain ⟨row, hrow, main_adult, hmain, po, hpo, cs, hcs, hs⟩ := h
  exact ⟨row, main_adult, po, cs, hrow, hmain, hpo, hcs, hs.symm⟩

/-- Every child entry built by `buildChildren` carries an age. -/
theorem buildChildren_age : ∀ (household : List PersonRow) (n : Nat)
    (cs : List PersonEntry), buildChildren household n = some cs →
    ∀ c ∈ cs, c.age.isSome := by
  intro household n
  induction n with
  | zero =>
      intro cs h c hc
      simp only [buildChildren, Option.some.injEq] at h
      subst h
      simp at hc
  | succ m ih =>
      intro cs h c hc
      simp only [buildChildren, bind, Option.bind_eq_some, Option.some.injEq] at h
      obtain ⟨rest, hrest, ch, hch, hcs⟩ := h
      subst hcs
      rcases List.mem_append.mp hc with hl | hr
      · exact ih rest hrest c hl
      · simp only [List.mem_singleton] at hr
        subst hr
        rfl

/-- The projection loop leaves the 2025 entry of the series untouched. -/
theorem projectSeries_at_2025 (r base : ℚ) (s : Nat → ℚ) :
    projectSeries r base s 2025 = s 2025 := by
  simp [projectSeries, forecastYears, Function.update_apply]

/-- Closed form of the projection loop at the written years: the value at
`2025 + n` for `1 ≤ n ≤ 9` is the compounded `base * (1 + r / 100) ^ n`. -/
theorem projectSeries_at (r base : ℚ) (s : Nat → ℚ) (n : Nat)
    (h1 : 1 ≤ n) (h2 : n ≤ 9) :
    projectSeries r base s (2025 + n) = base * (1 + r / 100) ^ n := by
  interval_cases n <;>
    simp [projectSeries, forecastYears, Function.update_apply] <;>
    ring

/-- Per-parameter reading of `create_custom_growth_factors`: an
unoverridden parameter keeps the Autumn series. -/
theorem create_custom_lookup_none (f : GrowthFactors) (p : ObrParam)
    (h : f.rateOf p = none) :
    create_custom_growth_factors f p = AUTUMN_24_OBR_FORECAST p := by
  rcases f with ⟨e, m, n, c⟩
  cases p <;> cases e <;> cases m <;> cases n <;> cases c <;>
    simp_all [create_custom_growth_factors, updateParam, GrowthFactors.rateOf]

/-- Per-parameter reading of `create_custom_growth_factors`: an overridden
parameter gets the projected series from the Autumn 2025 base value. -/
theorem create_custom_lookup_some (f : GrowthFactors) (p : ObrParam) (r : ℚ)
    (h : f.rateOf p = some r) :
    create_custom_growth_factors f p =
      projectSeries r (AUTUMN_24_OBR_FORECAST p 2025) (AUTUMN_24_OBR_FORECAST p) := by
  rcases f with ⟨e, m, n, c⟩
  cases p <;> cases e <;> cases m <;> cases n <;> cases c <;>
    simp_all [create_custom_growth_factors, updateParam, GrowthFactors.rateOf]

/-- The projection loop writes only the cell `ref`. -/
theorem writeSeries_frame (h : Heap) (ref : Nat) (r base : ℚ) (ρ y : Nat)
    (hρ : ρ ≠ ref) : writeSeries h ref r base ρ y = h ρ y := by
  simp [writeSeries, forecastYears, heapWrite, hρ]

/-- An optional projection loop writes only the cell `ref`. -/
theorem applyRate_frame (o : Option ℚ) (h : Heap) (ref : Nat) (base : ℚ)
    (ρ y : Nat) (hρ : ρ ≠ ref) : applyRate o h ref base ρ y = h ρ y := by
  cases o with
  | none => rfl
  | some r => exact writeSeries_frame h ref r base ρ y hρ

/-! ## Claim theorems -/

/-- Claim C1 counterexample: on a concrete panel the sampled main adult is aged 31
but the built situation gives `"you"` the query's age 34, so `"you"`'s age
is not taken from the sampled household. -/
theorem c1_counterexample :
    ∃ s, get_simulation_input panel0 0 q0 = some s ∧
      (panel0.filter (fun r => r.household_id == 7)).find?
        (fun r => r.adult_index == 1) = some row1 ∧
      row1.age = 31 ∧ s.you.age = some 34 ∧ s.you.age ≠ some row1.age := by
  refine ⟨sit0, by with_unfolding_all rfl, by with_unfolding_all rfl, rfl, rfl, by decide⟩

/-- Claim C1 (amended): in the situation built by `get_simulation_input`,
`"you"` carries the sampled main adult's seven income-source values with
only the query's designated source overwritten by the query's amount, and
`"you"`'s age equals the query's age (not the sampled adult's age). -/
theorem c1_you_incomes_from_main_adult (panel : List PersonRow) (u : ℚ)
    (q : Household) (s : Situation) (h : get_simulation_input panel u q = some s) :
    s.you.age = some q.age ∧
    ∃ row main_adult,
      weightedPick (incomeFilter (demoFilter panel q) q) u = some row ∧
      (panel.filter (fun r => r.household_id == row.household_id)).find?
        (fun r => r.adult_index == 1) = some main_adult ∧
      s.you.incomes q.income_source = q.income_amount ∧
      ∀ v, v ≠ q.income_source → s.you.incomes v = main_adult.get v := by
  obtain ⟨row, main_adult, po, cs, hrow, hmain, hpo, hcs, hs⟩ :=
    get_simulation_input_elim panel u q s h
  subst hs
  refine ⟨rfl, row, main_adult, hrow, hmain, Function.update_same _ _ _, ?_⟩
  intro v hv
  exact Function.update_noteq hv _ _

/-- Claim C1 witness: the amended theorem instantiated on the concrete panel. -/
theorem c1_witness :
    get_simulation_input panel0 0 q0 = some sit0 ∧
    (sit0.you.age = some q0.age ∧
      ∃ row main_adult,
        weightedPick (incomeFilter (demoFilter panel0 q0) q0) 0 = some row ∧
        (panel0.filter (fun r => r.household_id == row.household_id)).find?
          (fun r => r.adult_index == 1) = some main_adult ∧
        sit0.you.incomes q0.income_source = q0.income_amount ∧
        ∀ v, v ≠ q0.income_source → sit0.you.incomes v = main_adult.get v) :=
  ⟨by with_unfolding_all rfl,
   c1_you_incomes_from_main_adult panel0 0 q0 sit0 (by with_unfolding_all rfl)⟩

/-- Claim C4: any row the weighted sampler can draw passed both filter stages, so
its decade bucket, relation-type tag and benefit-unit child count equal the
query's, and its designated income-source value is within the strict 15000
tolerance of the query's amount. -/
theorem c4_sampled_row_satisfies_filters (panel : List PersonRow) (q : Household)
    (u : ℚ) (r : PersonRow)
    (h : weightedPick (incomeFilter (demoFilter panel q) q) u = some r) :
    r.age.fdiv 10 = q.age.fdiv 10 ∧
    r.relation_type = (if q.is_married then "COUPLE" else "SINGLE") ∧
    r.benunit_count_children = q.num_children ∧
    |r.get q.income_source - q.income_amount| < 15000 := by
  have hmem := weightedPick_mem _ _ _ h
  simp only [incomeFilter, demoFilter, List.mem_filter, Bool.and_eq_true, beq_iff_eq,
    decide_eq_true_eq, relationTag] at hmem
  exact ⟨hmem.1.2.1.1, hmem.1.2.1.2, hmem.1.2.2, hmem.2⟩

/-- Claim C4 witness: the concrete single-adult panel row satisfies all four
filter predicates for the concrete query. -/
theorem c4_witness :
    weightedPick (incomeFilter (demoFilter panel0 q0) q0) 0 = some row1 ∧
    (row1.age.fdiv 10 = q0.age.fdiv 10 ∧
      row1.relation_type = (if q0.is_married then "COUPLE" else "SINGLE") ∧
      row1.benunit_count_children = q0.num_children ∧
      |row1.get q0.income_source - q0.income_amount| < 15000) :=
  ⟨by with_unfolding_all rfl,
   c4_sampled_row_satisfies_filters panel0 q0 0 row1 (by with_unfolding_all rfl)⟩

/-- Claim C7 counterexample: for a concrete married query the built situation's
partner entry has no age entry at all — the spouse dict is built from the
seven income sources only, so the claim that every person entry (the partner
in particular) carries a per-year age fails. -/
theorem c7_counterexample :
    q1.is_married = true ∧
    ∃ s pe, get_simulation_input panel1 0 q1 = some s ∧
      s.partner = some pe ∧ pe.age = none := by
  refine ⟨rfl, sit1, ⟨none, fun v => rowB.get v⟩, by with_unfolding_all rfl, rfl, rfl⟩

/-- Claim C7 (amended): for every married query, every person entry of the built
situation carries the seven income-source fields for the base year, and
`"you"` and each indexed child also carry a base-year age; the partner entry
however carries the sampled partner's seven incomes but no age entry. -/
theorem c7_married_situation_shape (panel : List PersonRow) (u : ℚ)
    (q : Household) (s : Situation) (hm : q.is_married = true)
    (h : get_simulation_input panel u q = some s) :
    s.you.age = some q.age ∧
    (∀ c ∈ s.children, c.age.isSome) ∧
    ∃ row padult,
      weightedPick (incomeFilter (demoFilter panel q) q) u = some row ∧
      (panel.filter (fun r => r.household_id == row.household_id)).find?
        (fun r => r.adult_index == 2) = some padult ∧
      s.partner = some { age := none, incomes := fun v => padult.get v } := by
  obtain ⟨row, main_adult, po, cs, hrow, hmain, hpo, hcs, hs⟩ :=
    get_simulation_input_elim panel u q s h
  subst hs
  refine ⟨rfl, buildChildren_age _ _ _ hcs, row, ?_⟩
  simp only [getPartner, hm, if_true] at hpo
  rcases hfind : (panel.filter (fun r => r.household_id == row.household_id)).find?
      (fun r => r.adult_index == 2) with _ | padult
  · rw [hfind] at hpo; cases hpo
  · rw [hfind] at hpo
    simp only [Option.some.injEq] at hpo
    exact ⟨padult, hrow, hfind, by rw [← hpo]⟩

/-- Claim C7 witness: the amended theorem instantiated on the concrete couple
panel. -/
theorem c7_witness :
    get_simulation_input panel1 0 q1 = some sit1 ∧
    (sit1.you.age = some q1.age ∧
      (∀ c ∈ sit1.children, c.age.isSome) ∧
      ∃ row padult,
        weightedPick (incomeFilter (demoFilter panel1 q1) q1) 0 = some row ∧
        (panel1.filter (fun r => r.household_id == row.household_id)).find?
          (fun r => r.adult_index == 2) = some padult ∧
        sit1.partner = some { age := none, incomes := fun v => padult.get v }) :=
  ⟨by with_unfolding_all rfl,
   c7_married_situation_shape panel1 0 q1 sit1 rfl (by with_unfolding_all rfl)⟩

/-- Claim C8: household selection is deterministic — with the same panel, query
and sampling seed, two runs of the matcher produce the same situation, and
the sampled household id is uniquely determined. -/
theorem c8_matcher_deterministic (panel : List PersonRow) (u : ℚ) (q : Household)
    (s1 s2 : Situation) (h1 : get_simulation_input panel u q = some s1)
    (h2 : get_simulation_input panel u q = some s2) :
    s1 = s2 ∧
    ∀ i1 i2, sampledHouseholdId panel u q = some i1 →
      sampledHouseholdId panel u q = some i2 → i1 = i2 := by
  constructor
  · exact Option.some.inj (h1.symm.trans h2)
  · intro i1 i2 hi1 hi2
    exact Option.some.inj (hi1.symm.trans hi2)

/-- Claim C8 witness: two runs on the concrete panel with seed 0 agree. -/
theorem c8_witness :
    get_simulation_input panel0 0 q0 = some sit0 ∧
    (sit0 = sit0 ∧
      ∀ i1 i2, sampledHouseholdId panel0 0 q0 = some i1 →
        sampledHouseholdId panel0 0 q0 = some i2 → i1 = i2) :=
  ⟨by with_unfolding_all rfl,
   c8_matcher_deterministic panel0 0 q0 sit0 sit0
     (by with_unfolding_all rfl) (by with_unfolding_all rfl)⟩

/-- Claim C3: for every custom growth-factor set and macro parameter, an override
rate `r` makes the custom table's value at `2025 + n` (for the horizon
through 2034) equal the Autumn 2025 base compounded as
`base * (1 + r / 100) ^ n`, while a parameter whose rate is unset keeps the
Autumn built-in values at every year. -/
theorem c3_custom_table_projection (f : GrowthFactors) (p : ObrParam) :
    (∀ r, f.rateOf p = some r → ∀ n, n ≤ 9 →
        create_custom_growth_factors f p (2025 + n) =
          AUTUMN_24_OBR_FORECAST p 2025 * (1 + r / 100) ^ n) ∧
    (f.rateOf p = none →
        ∀ y, create_custom_growth_factors f p y = AUTUMN_24_OBR_FORECAST p y) := by
  constructor
  · intro r hr n hn
    rw [create_custom_lookup_some f p r hr]
    rcases Nat.eq_zero_or_pos n with h0 | h1
    · subst h0
      simp [projectSeries_at_2025]
    · exact projectSeries_at _ _ _ n h1 hn
  · intro hr y
    rw [create_custom_lookup_none f p hr]

/-- Claim C3 witness: a 2 percent employment-income override compounds the Autumn
2025 base over three years, and the unset mixed-income parameter keeps the
Autumn value at 2030. -/
theorem c3_witness :
    GrowthFactors.rateOf ⟨some 2, none, none, none⟩ ObrParam.employment_income = some 2 ∧
    (3 : Nat) ≤ 9 ∧
    create_custom_growth_factors ⟨some 2, none, none, none⟩ ObrParam.employment_income (2025 + 3) =
      AUTUMN_24_OBR_FORECAST ObrParam.employment_income 2025 * (1 + 2 / 100) ^ 3 ∧
    GrowthFactors.rateOf ⟨some 2, none, none, none⟩ ObrParam.mixed_income = none ∧
    create_custom_growth_factors ⟨some 2, none, none, none⟩ ObrParam.mixed_income 2030 =
      AUTUMN_24_OBR_FORECAST ObrParam.mixed_income 2030 :=
  ⟨rfl, by decide,
   (c3_custom_table_projection ⟨some 2, none, none, none⟩ .employment_income).1 2 rfl 3 (by decide),
   rfl,
   (c3_custom_table_projection ⟨some 2, none, none, none⟩ .mixed_income).2 rfl 2030⟩

/-- Claim C9: `create_custom_growth_factors` at the heap level never writes a
pre-existing cell — the dict comprehension copies each per-year map into
fresh cells and the projection loops write only those — so every live cell
(in particular the Autumn and Spring built-in tables) reads the same before
and after the call. -/
theorem c9_builtin_tables_not_mutated (f : GrowthFactors) (autumn : TableRefs)
    (st : Store) (ρ y : Nat) (hρ : ρ < st.next) :
    (create_custom_growth_factors_heap f autumn st).2.heap ρ y = st.heap ρ y := by
  have h0 : ρ ≠ st.next := by omega
  have h1 : ρ ≠ st.next + 1 := by omega
  have h2 : ρ ≠ st.next + 2 := by omega
  have h3 : ρ ≠ st.next + 3 := by omega
  simp only [create_custom_growth_factors_heap]
  rw [applyRate_frame _ _ _ _ _ _ h3, applyRate_frame _ _ _ _ _ _ h2,
      applyRate_frame _ _ _ _ _ _ h1, applyRate_frame _ _ _ _ _ _ h0]
  simp [h0, h1, h2, h3]

/-- Claim C9 witness: a concrete call with two overrides leaves a live Autumn cell
unchanged. -/
theorem c9_witness :
    (1 : Nat) < st0.next ∧
    (create_custom_growth_factors_heap ⟨some 5, none, some 3, none⟩ autumn0 st0).2.heap 1 2030 =
      st0.heap 1 2030 :=
  ⟨by decide,
   c9_builtin_tables_not_mutated ⟨some 5, none, some 3, none⟩ autumn0 st0 1 2030 (by decide)⟩

/-- Successful responses of `calculate_forecast` decompose into the built
situation and the rounded fields computed from the three (or four) engine
figures. -/
theorem calculate_forecast_ok_elim (e : Engine) (panel : List PersonRow) (u : ℚ)
    (q : Household) (res : ForecastResult)
    (h : (calculate_forecast e panel u q).1 = .ok res) :
    ∃ s, get_simulation_input panel u q = some s ∧
      res.income_2025 = round2 (e s AUTUMN_24_OBR_FORECAST 2025) ∧
      res.income_2030_obr = round2 (e s SPRING_25_OBR_FORECAST 2030) ∧
      res.income_2030_autumn = round2 (e s AUTUMN_24_OBR_FORECAST 2030) ∧
      res.absolute_change_obr =
        round2 (e s SPRING_25_OBR_FORECAST 2030 - e s AUTUMN_24_OBR_FORECAST 2025) ∧
      res.percentage_change_obr =
        round2 (if 0 < e s AUTUMN_24_OBR_FORECAST 2025 then
          (e s SPRING_25_OBR_FORECAST 2030 - e s AUTUMN_24_OBR_FORECAST 2025) /
            e s AUTUMN_24_OBR_FORECAST 2025 * 100 else 0) ∧
      res.forecast_difference =
        round2 (e s SPRING_25_OBR_FORECAST 2030 - e s AUTUMN_24_OBR_FORECAST 2030) ∧
      res.forecast_percentage_difference =
        round2 (if 0 < e s AUTUMN_24_OBR_FORECAST 2030 then
          (e s SPRING_25_OBR_FORECAST 2030 - e s AUTUMN_24_OBR_FORECAST 2030) /
            e s AUTUMN_24_OBR_FORECAST 2030 * 100 else 0) ∧
      ((q.custom_growth_factors = none ∧ res.income_2030_custom = none ∧
          res.absolute_change_custom = none ∧ res.percentage_change_custom = none) ∨
        (∃ f, q.custom_growth_factors = some f ∧
          res.income_2030_custom =
            some (round2 (e s (create_custom_growth_factors f) 2030)) ∧
          res.absolute_change_custom =
            some (round2 (e s (create_custom_growth_factors f) 2030 -
              e s AUTUMN_24_OBR_FORECAST 2025)) ∧
          res.percentage_change_custom =
            some (round2 (if 0 < e s AUTUMN_24_OBR_FORECAST 2025 then
              (e s (create_custom_growth_factors f) 2030 -
                e s AUTUMN_24_OBR_FORECAST 2025) /
                e s AUTUMN_24_OBR_FORECAST 2025 * 100 else 0)))) := by
  simp only [calculate_forecast] at h
  split at h
  · simp at h
  · split at h
    · simp at h
    · rename_i s heq
      split at h
      · rename_i hcf
        simp only [Except.ok.injEq] at h
        subst h
        exact ⟨s, heq, rfl, rfl, rfl, rfl, rfl, rfl, rfl,
          Or.inl ⟨hcf, rfl, rfl, rfl⟩⟩
      · rename_i f hcf
        simp only [Except.ok.injEq] at h
        subst h
        exact ⟨s, heq, rfl, rfl, rfl, rfl, rfl, rfl, rfl,
          Or.inr ⟨f, hcf, rfl, rfl, rfl⟩⟩

/-- Claim C2: the returned `forecast_difference` equals `income_2030_obr` minus
`income_2030_autumn` exactly, as published (rounded) figures. This holds
because the source's Spring table duplicates the Autumn values, so the two
2030 engine figures coincide and both sides are zero. -/
theorem c2_published_difference_exact (e : Engine) (panel : List PersonRow)
    (u : ℚ) (q : Household) (res : ForecastResult)
    (h : (calculate_forecast e panel u q).1 = .ok res) :
    res.forecast_difference = res.income_2030_obr - res.income_2030_autumn := by
  obtain ⟨s, -, -, hobr, haut, -, -, hdiff, -, -⟩ :=
    calculate_forecast_ok_elim e panel u q res h
  rw [hdiff, hobr, haut, spring_eq_autumn]
  simp [round2_zero]

/-- Claim C2 witness: the concrete run's published difference is exact. -/
theorem c2_witness :
    (calculate_forecast e0 panel0 0 q0).1 = .ok res0 ∧
    res0.forecast_difference = res0.income_2030_obr - res0.income_2030_autumn :=
  ⟨by with_unfolding_all rfl,
   c2_published_difference_exact e0 panel0 0 q0 res0 (by with_unfolding_all rfl)⟩

/-- Claim C5: `percentage_change_obr` is the rounded percentage of the unrounded
absolute change over the unrounded 2025 income when that income is positive,
and 0 when it is zero or negative; `forecast_percentage_difference` is the
analogous guarded rounded percentage over the unrounded Autumn 2030
income. -/
theorem c5_guarded_percentages (e : Engine) (panel : List PersonRow) (u : ℚ)
    (q : Household) (s : Situation) (res : ForecastResult)
    (hs : get_simulation_input panel u q = some s)
    (h : (calculate_forecast e panel u q).1 = .ok res) :
    ((0 < e s AUTUMN_24_OBR_FORECAST 2025 →
        res.percentage_change_obr =
          round2 ((e s SPRING_25_OBR_FORECAST 2030 - e s AUTUMN_24_OBR_FORECAST 2025) /
            e s AUTUMN_24_OBR_FORECAST 2025 * 100)) ∧
      (e s AUTUMN_24_OBR_FORECAST 2025 ≤ 0 → res.percentage_change_obr = 0)) ∧
    ((0 < e s AUTUMN_24_OBR_FORECAST 2030 →
        res.forecast_percentage_difference =
          round2 ((e s SPRING_25_OBR_FORECAST 2030 - e s AUTUMN_24_OBR_FORECAST 2030) /
            e s AUTUMN_24_OBR_FORECAST 2030 * 100)) ∧
      (e s AUTUMN_24_OBR_FORECAST 2030 ≤ 0 →
        res.forecast_percentage_difference = 0)) := by
  obtain ⟨t, ht, -, -, -, -, hpct, -, hfpct, -⟩ :=
    calculate_forecast_ok_elim e panel u q res h
  have hts : t = s := Option.some.inj (ht.symm.trans hs)
  subst hts
  refine ⟨⟨fun hpos => ?_, fun hnp => ?_⟩, fun hpos => ?_, fun hnp => ?_⟩
  · rw [hpct, if_pos hpos]
  · rw [hpct, if_neg (not_lt.mpr hnp), round2_zero]
  · rw [hfpct, if_pos hpos]
  · rw [hfpct, if_neg (not_lt.mpr hnp), round2_zero]

/-- Claim C5 witness: the guards instantiated on the concrete run (positive base
income 100). -/
theorem c5_witness :
    get_simulation_input panel0 0 q0 = some sit0 ∧
    (calculate_forecast e0 panel0 0 q0).1 = .ok res0 ∧
    (0 : ℚ) < e0 sit0 AUTUMN_24_OBR_FORECAST 2025 ∧
    res0.percentage_change_obr =
      round2 ((e0 sit0 SPRING_25_OBR_FORECAST 2030 - e0 sit0 AUTUMN_24_OBR_FORECAST 2025) /
        e0 sit0 AUTUMN_24_OBR_FORECAST 2025 * 100) :=
  ⟨by with_unfolding_all rfl, by with_unfolding_all rfl, by with_unfolding_all decide,
   (c5_guarded_percentages e0 panel0 0 q0 sit0 res0
      (by with_unfolding_all rfl) (by with_unfolding_all rfl)).1.1
     (by with_unfolding_all decide)⟩

/-- Claim C6: a request aged below 16 yields the explicit 400 validation error
with no engine call (independently of panel, seed and engine, so the
matcher is never consulted either); a request aged 16 or older never yields
the validation error. -/
theorem c6_age_validation (q : Household) :
    (q.age < 16 → ∀ (e : Engine) (panel : List PersonRow) (u : ℚ),
        calculate_forecast e panel u q =
          (.error (.badRequest "Age must be at least 16"), [])) ∧
    (16 ≤ q.age → ∀ (e : Engine) (panel : List PersonRow) (u : ℚ) (msg : String),
        (calculate_forecast e panel u q).1 ≠ .error (.badRequest msg)) := by
  constructor
  · intro hage e panel u
    simp [calculate_forecast, hage]
  · intro hage e panel u msg
    simp only [calculate_forecast, if_neg (not_lt.mpr hage)]
    split
    · simp
    · split <;> simp

/-- Claim C6 witness: the validation branch on a concrete under-age query, and its
absence on a concrete valid query. -/
theorem c6_witness :
    qYoung.age < 16 ∧
    calculate_forecast e0 panel0 0 qYoung =
      (.error (.badRequest "Age must be at least 16"), []) ∧
    (16 : Int) ≤ q0.age ∧
    (calculate_forecast e0 panel0 0 q0).1 ≠ .error (.badRequest "Age must be at least 16") :=
  ⟨by decide, (c6_age_validation qYoung).1 (by decide) e0 panel0 0,
   by decide, (c6_age_validation q0).2 (by decide) e0 panel0 0 _⟩

/-- Claim C10: supplying a custom growth-factor object with all four rates unset
still runs the custom branch — the generated custom table equals the Autumn
table at every parameter and year, and the three optional custom response
fields are populated. -/
theorem c10_all_unset_factors_still_custom :
    (∀ p y, create_custom_growth_factors ⟨none, none, none, none⟩ p y =
        AUTUMN_24_OBR_FORECAST p y) ∧
    (∀ (e : Engine) (panel : List PersonRow) (u : ℚ) (q : Household)
        (res : ForecastResult),
      q.custom_growth_factors = some ⟨none, none, none, none⟩ →
      (calculate_forecast e panel u q).1 = .ok res →
      res.income_2030_custom.isSome ∧ res.absolute_change_custom.isSome ∧
        res.percentage_change_custom.isSome) := by
  constructor
  · intro p y
    rfl
  · intro e panel u q res hq h
    obtain ⟨s, -, -, -, -, -, -, -, -, hc⟩ :=
      calculate_forecast_ok_elim e panel u q res h
    rcases hc with ⟨hnone, -, -, -⟩ | ⟨f, -, hic, hac, hpc⟩
    · rw [hq] at hnone; cases hnone
    · rw [hic, hac, hpc]
      exact ⟨rfl, rfl, rfl⟩

/-- Claim C10 witness: the concrete run with an all-unset custom factor object
populates the custom fields. -/
theorem c10_witness :
    q2.custom_growth_factors = some ⟨none, none, none, none⟩ ∧
    (calculate_forecast e0 panel0 0 q2).1 = .ok res2 ∧
    (res2.income_2030_custom.isSome ∧ res2.absolute_change_custom.isSome ∧
      res2.percentage_change_custom.isSome) :=
  ⟨rfl, by with_unfolding_all rfl,
   c10_all_unset_factors_still_custom.2 e0 panel0 0 q2 res2 rfl
     (by with_unfolding_all rfl)⟩

end ObrForecast
